import Mathlib

/-!
Verification development for the Chat LLM application
(providers in `src/api/*.py`, config in `src/config/settings.py`,
model listing in `src/main.py`).

The Python code is shallowly embedded: every adapter method becomes a Lean
function over an explicit state, the HTTP layer is an oracle
`Net : Request → Except PyExc HttpResponse`, and each stateful step also
returns the ordered list of HTTP requests it issued.  Python exceptions are
the inductive `PyExc`; `str(e)` is `PyExc.message`.
-/

namespace Llm

/-- A JSON value, used for request payloads and response bodies
(`resp.json()` in the Python code). -/
inductive Json where
  | null : Json
  | bool (b : Bool) : Json
  | num (q : Rat) : Json
  | str (s : String) : Json
  | arr (xs : List Json) : Json
  | obj (fields : List (String × Json)) : Json

/-- Association-list lookup used for Python dict indexing. -/
def assocLookup : List (String × Json) → String → Option Json
  | [], _ => none
  | (k, v) :: rest, key => if k = key then some v else assocLookup rest key

/-- `key in data` / `data.get(key)` on a JSON object; `none` when the value
is not an object or the key is missing. -/
def Json.lookup : Json → String → Option Json
  | .obj fields, key => assocLookup fields key
  | _, _ => none

/-- Python exceptions that the embedded code distinguishes:
the library's own `APIError` and `ValidationError` (from `api/base.py`),
`aiohttp.ClientError` for transport failures, and any other exception. -/
inductive PyExc where
  | apiError (msg : String) : PyExc
  | validationError (msg : String) : PyExc
  | clientError (msg : String) : PyExc
  | otherError (msg : String) : PyExc
  deriving DecidableEq

/-- `str(e)`: the message carried by the exception. -/
def PyExc.message : PyExc → String
  | .apiError m => m
  | .validationError m => m
  | .clientError m => m
  | .otherError m => m

/-- `ModelType` from `api/base.py`. -/
inductive ModelType where
  | api : ModelType
  | local : ModelType
  deriving DecidableEq

/-- `.value` of a `ModelType`. -/
def ModelType.value : ModelType → String
  | .api => "api"
  | .local => "local"

/-- `ModelType(s)`: parse a value string back to the enum
(`none` models the `ValueError` on an unknown value). -/
def ModelType.parse (s : String) : Option ModelType :=
  if s = "api" then some .api
  else if s = "local" then some .local
  else none

/-- `ProviderType` from `api/base.py`. -/
inductive ProviderType where
  | mistral : ProviderType
  | gemini : ProviderType
  | deepseek : ProviderType
  | lm_studio : ProviderType
  | ollama : ProviderType
  deriving DecidableEq

/-- `.value` of a `ProviderType`. -/
def ProviderType.value : ProviderType → String
  | .mistral => "mistral"
  | .gemini => "gemini"
  | .deepseek => "deepseek"
  | .lm_studio => "lm_studio"
  | .ollama => "ollama"

/-- `ProviderType(s)`: parse a value string back to the enum. -/
def ProviderType.parse (s : String) : Option ProviderType :=
  if s = "mistral" then some .mistral
  else if s = "gemini" then some .gemini
  else if s = "deepseek" then some .deepseek
  else if s = "lm_studio" then some .lm_studio
  else if s = "ollama" then some .ollama
  else none

/-- `str(provider)` for a `ProviderType` enum member, as produced by a
Python f-string (`f"... {self.config.provider}"`). -/
def ProviderType.pyStr : ProviderType → String
  | .mistral => "ProviderType.MISTRAL"
  | .gemini => "ProviderType.GEMINI"
  | .deepseek => "ProviderType.DEEPSEEK"
  | .lm_studio => "ProviderType.LM_STUDIO"
  | .ollama => "ProviderType.OLLAMA"

/-- `ModelConfig` from `api/base.py`.  Optional string fields are `Option`;
`parameters` (a `Dict[str, Any]` defaulting to `None`) is an optional JSON
object. -/
structure ModelConfig where
  name : String
  provider : ProviderType
  type : ModelType
  api_key : Option String := none
  base_url : Option String := none
  parameters : Option Json := none

/-- `Message` from `api/base.py` (`timestamp` is a float, modelled as `Rat`). -/
structure Message where
  role : String
  content : String
  timestamp : Rat
  deriving DecidableEq

/-- Python truthiness test `not x` for an optional string:
true when the value is `None` or the empty string. -/
def optStrFalsy : Option String → Bool
  | none => true
  | some s => s = ""

/-- f-string rendering of an optional string (`None` prints as `"None"`). -/
def optStrRender : Option String → String
  | none => "None"
  | some s => s

/-- Python truthiness of the optional `max_tokens` integer:
`None` and `0` are falsy. -/
def optIntTruthy : Option Int → Bool
  | none => false
  | some n => decide (n ≠ 0)

/-- `LLMProvider._validate_config` from `api/base.py`: a remote-API config
needs a truthy `api_key`, a local config a truthy `base_url`. -/
def validate_config (c : ModelConfig) : Except PyExc Unit :=
  if c.type = .api ∧ optStrFalsy c.api_key then
    .error (.validationError ("API key requise pour " ++ c.provider.pyStr))
  else if c.type = .local ∧ optStrFalsy c.base_url then
    .error (.validationError ("URL de base requise pour " ++ c.provider.pyStr))
  else
    .ok ()

/-- State of a `MistralProvider` instance: its config and the optional
`aiohttp` session (`none` both before `initialize` and after `close`). -/
structure MistralState where
  config : ModelConfig
  session : Option Unit

/-- State of a `GeminiProvider` instance. -/
structure GeminiState where
  config : ModelConfig
  session : Option Unit

/-- `MistralProvider.__init__`: rejects a config for another provider, then
runs the base-class validation and starts with `session = None`. -/
def MistralProvider.mk (c : ModelConfig) : Except PyExc MistralState :=
  if c.provider ≠ .mistral then
    .error (.validationError "Configuration invalide pour Mistral")
  else
    match validate_config c with
    | .error e => .error e
    | .ok _ => .ok { config := c, session := none }

/-- `GeminiProvider.__init__`. -/
def GeminiProvider.mk (c : ModelConfig) : Except PyExc GeminiState :=
  if c.provider ≠ .gemini then
    .error (.validationError "Configuration invalide pour Gemini")
  else
    match validate_config c with
    | .error e => .error e
    | .ok _ => .ok { config := c, session := none }

/-- `LMStudioProvider.__init__` (inherited from `LLMProvider`): only the
base-class config validation runs; the provider keeps no session state. -/
def LMStudioProvider.mk (c : ModelConfig) : Except PyExc ModelConfig :=
  match validate_config c with
  | .error e => .error e
  | .ok _ => .ok c

/-- `OllamaProvider.__init__` (inherited from `LLMProvider`). -/
def OllamaProvider.mk (c : ModelConfig) : Except PyExc ModelConfig :=
  match validate_config c with
  | .error e => .error e
  | .ok _ => .ok c

/-- The config invariant of claim C2: a remote-API config carries a truthy
credential and a local config a truthy endpoint. -/
def configOk (c : ModelConfig) : Prop :=
  (c.type = .api → optStrFalsy c.api_key = false) ∧
  (c.type = .local → optStrFalsy c.base_url = false)

instance (c : ModelConfig) : Decidable (configOk c) := by
  unfold configOk; infer_instance

/-- An HTTP response as the adapters observe it: status code, body text
(`await resp.text()`) and parsed JSON (`await resp.json()`). -/
structure HttpResponse where
  status : Nat
  body : String
  json : Json

/-- One HTTP request issued by an adapter: method, full URL, JSON payload
(`Json.null` for a GET). -/
structure Request where
  method : String
  url : String
  payload : Json

/-- The network oracle: what the backend does for each request. -/
def Net : Type := Request → Except PyExc HttpResponse

/-- Outcome of one stateful adapter call: the Python return value or the
exception, the instance state afterwards, and the requests issued in order. -/
structure StepResult (σ : Type) (α : Type) where
  result : Except PyExc α
  state : σ
  trace : List Request

/-- Return value of `chat_completion`: the extracted JSON value (the code
dereferences the response without enforcing `str`), or, for `stream=True`,
the unstarted async generator together with the endpoint and params it
captured. -/
inductive ChatOut where
  | text (j : Json) : ChatOut
  | streamGen (endpoint : String) (params : Json) : ChatOut

/-- Python `d[k]` on a JSON value: `KeyError` (whose `str` is the quoted
key) when the key is missing, `TypeError` when `d` is not an object. -/
def pyItem (j : Json) (k : String) : Except PyExc Json :=
  match j with
  | .obj fields =>
    match assocLookup fields k with
    | some v => .ok v
    | none => .error (.otherError ("\x27" ++ k ++ "\x27"))
  | _ => .error (.otherError "object is not subscriptable")

/-- Python `d[0]` on a JSON value. -/
def pyFirst (j : Json) : Except PyExc Json :=
  match j with
  | .arr (x :: _) => .ok x
  | .arr [] => .error (.otherError "list index out of range")
  | _ => .error (.otherError "object is not subscriptable")

/-- Python truthiness of a JSON value. -/
def Json.truthy : Json → Bool
  | .null => false
  | .bool b => b
  | .num q => decide (q ≠ 0)
  | .str s => decide (s ≠ "")
  | .arr xs => !xs.isEmpty
  | .obj fields => !fields.isEmpty

/-- The `{"role": ..., "content": ...}` message rendering shared by the
Mistral and LM Studio request builders. -/
def roleContentJson (msgs : List Message) : List Json :=
  msgs.map fun m => .obj [("role", .str m.role), ("content", .str m.content)]

/-- The extraction `data["choices"][0]["message"]["content"]` used by the
Mistral and LM Studio adapters. -/
def choicesContent (data : Json) : Except PyExc Json := do
  let choices ← pyItem data "choices"
  let first ← pyFirst choices
  let msg ← pyItem first "message"
  pyItem msg "content"

/-- The connection-test message built inside `validate_credentials` of the
Mistral and Gemini adapters. -/
def testMessage : Message := ⟨"user", "Test de connexion", 0⟩

/-! ### MistralProvider (`src/api/mistral.py`) -/

/-- `MistralProvider.API_URL`. -/
def MistralProvider.apiUrl : String := "https://codestral.mistral.ai/v1/"

/-- The `params` dict built by `MistralProvider.chat_completion`
(`max_tokens` is added only when truthy). -/
def MistralProvider.chatParams (cfg : ModelConfig) (msgs : List Message)
    (temperature : Rat) (max_tokens : Option Int) : Json :=
  .obj ([("model", .str cfg.name),
         ("messages", .arr (roleContentJson msgs)),
         ("temperature", .num temperature)] ++
        (if optIntTruthy max_tokens then
          [("max_tokens", .num ((max_tokens.getD 0 : Int) : Rat))]
         else []))

/-- The completion request `POST {API_URL}chat/completions`. -/
def MistralProvider.chatRequest (cfg : ModelConfig) (msgs : List Message)
    (temperature : Rat) (max_tokens : Option Int) : Request :=
  ⟨"POST", MistralProvider.apiUrl ++ "chat/completions",
    MistralProvider.chatParams cfg msgs temperature max_tokens⟩

/-- The two `except` clauses of `MistralProvider.chat_completion`:
`aiohttp.ClientError` and the catch-all. -/
def MistralProvider.wrapExc : PyExc → PyExc
  | .clientError m => .apiError ("Erreur de communication avec Mistral: " ++ m)
  | e => .apiError ("Erreur inattendue: " ++ e.message)

/-- Body of `MistralProvider.chat_completion` once a session exists
(the code after the implicit-initialization check). -/
def MistralProvider.chatWithSession (net : Net) (cfg : ModelConfig)
    (msgs : List Message) (temperature : Rat) (max_tokens : Option Int)
    (stream : Bool) : Except PyExc ChatOut × List Request :=
  if stream then
    (.ok (.streamGen "chat/completions"
      (MistralProvider.chatParams cfg msgs temperature max_tokens)), [])
  else
    let req := MistralProvider.chatRequest cfg msgs temperature max_tokens
    match net req with
    | .error e => (.error (MistralProvider.wrapExc e), [req])
    | .ok resp =>
      if resp.status ≠ 200 then
        (.error (MistralProvider.wrapExc (.apiError
          ("Erreur Mistral (" ++ toString resp.status ++ "): " ++ resp.body))),
         [req])
      else
        match choicesContent resp.json with
        | .ok content => (.ok (.text content), [req])
        | .error e => (.error (MistralProvider.wrapExc e), [req])

/-- `MistralProvider.validate_credentials` as invoked from `initialize`
(the session already exists): one short test completion, any exception
rewrapped into an `APIError`. -/
def MistralProvider.validateWithSession (net : Net) (cfg : ModelConfig) :
    Except PyExc Bool × List Request :=
  let r := MistralProvider.chatWithSession net cfg [testMessage] 0.1 (some 10) false
  match r.1 with
  | .ok _ => (.ok true, r.2)
  | .error e =>
    (.error (.apiError ("Validation des credentials échouée: " ++ e.message)), r.2)

/-- `MistralProvider.initialize`: create the session if absent, run the
credential check; on any exception close the session, reset it to `None`
and raise an `APIError`. -/
def MistralProvider.initialise (net : Net) (s : MistralState) :
    StepResult MistralState Unit :=
  let s1 : MistralState := { s with session := some () }
  let r := MistralProvider.validateWithSession net s1.config
  match r.1 with
  | .ok _ => ⟨.ok (), s1, r.2⟩
  | .error e =>
    ⟨.error (.apiError ("Erreur d\x27initialisation Mistral: " ++ e.message)),
     { s with session := none }, r.2⟩

/-- `MistralProvider.chat_completion`: implicit initialization when the
session is `None`, then the request. -/
def MistralProvider.chat_completion (net : Net) (s : MistralState)
    (msgs : List Message) (temperature : Rat) (max_tokens : Option Int)
    (stream : Bool) : StepResult MistralState ChatOut :=
  if s.session = none then
    let ini := MistralProvider.initialise net s
    match ini.result with
    | .error e => ⟨.error e, ini.state, ini.trace⟩
    | .ok _ =>
      let r := MistralProvider.chatWithSession net ini.state.config
        msgs temperature max_tokens stream
      ⟨r.1, ini.state, ini.trace ++ r.2⟩
  else
    let r := MistralProvider.chatWithSession net s.config
      msgs temperature max_tokens stream
    ⟨r.1, s, r.2⟩

/-- `MistralProvider.validate_credentials` called on an arbitrary instance
(goes through the full `chat_completion`, including implicit init). -/
def MistralProvider.validate_credentials (net : Net) (s : MistralState) :
    StepResult MistralState Bool :=
  let r := MistralProvider.chat_completion net s [testMessage] 0.1 (some 10) false
  match r.result with
  | .ok _ => ⟨.ok true, r.state, r.trace⟩
  | .error e =>
    ⟨.error (.apiError ("Validation des credentials échouée: " ++ e.message)),
     r.state, r.trace⟩

/-- `MistralProvider.close`: close the session and reset it to `None`. -/
def MistralProvider.close (s : MistralState) : MistralState :=
  { s with session := none }

/-! ### GeminiProvider (`src/api/gemini.py`) -/

/-- `GeminiProvider.API_URL`. -/
def GeminiProvider.apiUrl : String := "https://generativelanguage.googleapis.com/v1/"

/-- The message-conversion loop of `GeminiProvider.chat_completion`:
role `"user"` stays `"user"`, every other role becomes `"model"`, and the
content goes to `parts[0].text`. -/
def GeminiProvider.formatMessages : List Message → List Json
  | [] => []
  | m :: rest =>
    .obj [("role", .str (if m.role = "user" then "user" else "model")),
          ("parts", .arr [.obj [("text", .str m.content)]])]
      :: GeminiProvider.formatMessages rest

/-- The `params` dict built by `GeminiProvider.chat_completion`
(`maxOutputTokens` falls back to 2048 when `max_tokens` is falsy). -/
def GeminiProvider.chatParams (msgs : List Message) (temperature : Rat)
    (max_tokens : Option Int) : Json :=
  .obj [("contents", .arr (GeminiProvider.formatMessages msgs)),
        ("generationConfig", .obj
          [("temperature", .num temperature),
           ("maxOutputTokens", .num
             ((if optIntTruthy max_tokens then max_tokens.getD 0 else 2048 : Int) : Rat))])]

/-- The completion request
`POST {API_URL}models/{name}:generateContent?key={api_key}`. -/
def GeminiProvider.chatRequest (cfg : ModelConfig) (msgs : List Message)
    (temperature : Rat) (max_tokens : Option Int) : Request :=
  ⟨"POST",
   GeminiProvider.apiUrl ++ "models/" ++ cfg.name ++ ":generateContent?key="
     ++ optStrRender cfg.api_key,
   GeminiProvider.chatParams msgs temperature max_tokens⟩

/-- The two `except` clauses of `GeminiProvider.chat_completion`. -/
def GeminiProvider.wrapExc : PyExc → PyExc
  | .clientError m => .apiError ("Erreur de communication avec Gemini: " ++ m)
  | e => .apiError ("Erreur inattendue: " ++ e.message)

/-- Response extraction of `GeminiProvider.chat_completion`:
`if not data.get("candidates")` raises, otherwise
`data["candidates"][0]["content"]["parts"][0]["text"]`. -/
def GeminiProvider.extractContent (data : Json) : Except PyExc Json :=
  if (match data.lookup "candidates" with
      | some v => v.truthy
      | none => false) = false then
    .error (.apiError "Pas de réponse générée")
  else do
    let cands ← pyItem data "candidates"
    let first ← pyFirst cands
    let content ← pyItem first "content"
    let parts ← pyItem content "parts"
    let part0 ← pyFirst parts
    pyItem part0 "text"

/-- Body of `GeminiProvider.chat_completion` once a session exists. -/
def GeminiProvider.chatWithSession (net : Net) (cfg : ModelConfig)
    (msgs : List Message) (temperature : Rat) (max_tokens : Option Int)
    (stream : Bool) : Except PyExc ChatOut × List Request :=
  if stream then
    (.ok (.streamGen
      ("models/" ++ cfg.name ++ ":generateContent?key=" ++ optStrRender cfg.api_key)
      (GeminiProvider.chatParams msgs temperature max_tokens)), [])
  else
    let req := GeminiProvider.chatRequest cfg msgs temperature max_tokens
    match net req with
    | .error e => (.error (GeminiProvider.wrapExc e), [req])
    | .ok resp =>
      if resp.status ≠ 200 then
        (.error (GeminiProvider.wrapExc (.apiError
          ("Erreur Gemini (" ++ toString resp.status ++ "): " ++ resp.body))),
         [req])
      else
        match GeminiProvider.extractContent resp.json with
        | .ok content => (.ok (.text content), [req])
        | .error e => (.error (GeminiProvider.wrapExc e), [req])

/-- `GeminiProvider.validate_credentials` as invoked from `initialize`. -/
def GeminiProvider.validateWithSession (net : Net) (cfg : ModelConfig) :
    Except PyExc Bool × List Request :=
  let r := GeminiProvider.chatWithSession net cfg [testMessage] 0.1 (some 10) false
  match r.1 with
  | .ok _ => (.ok true, r.2)
  | .error e =>
    (.error (.apiError ("Validation des credentials échouée: " ++ e.message)), r.2)

/-- `GeminiProvider.initialize`. -/
def GeminiProvider.initialise (net : Net) (s : GeminiState) :
    StepResult GeminiState Unit :=
  let s1 : GeminiState := { s with session := some () }
  let r := GeminiProvider.validateWithSession net s1.config
  match r.1 with
  | .ok _ => ⟨.ok (), s1, r.2⟩
  | .error e =>
    ⟨.error (.apiError ("Erreur d\x27initialisation Gemini: " ++ e.message)),
     { s with session := none }, r.2⟩

/-- `GeminiProvider.chat_completion`. -/
def GeminiProvider.chat_completion (net : Net) (s : GeminiState)
    (msgs : List Message) (temperature : Rat) (max_tokens : Option Int)
    (stream : Bool) : StepResult GeminiState ChatOut :=
  if s.session = none then
    let ini := GeminiProvider.initialise net s
    match ini.result with
    | .error e => ⟨.error e, ini.state, ini.trace⟩
    | .ok _ =>
      let r := GeminiProvider.chatWithSession net ini.state.config
        msgs temperature max_tokens stream
      ⟨r.1, ini.state, ini.trace ++ r.2⟩
  else
    let r := GeminiProvider.chatWithSession net s.config
      msgs temperature max_tokens stream
    ⟨r.1, s, r.2⟩

/-- `GeminiProvider.validate_credentials` on an arbitrary instance. -/
def GeminiProvider.validate_credentials (net : Net) (s : GeminiState) :
    StepResult GeminiState Bool :=
  let r := GeminiProvider.chat_completion net s [testMessage] 0.1 (some 10) false
  match r.result with
  | .ok _ => ⟨.ok true, r.state, r.trace⟩
  | .error e =>
    ⟨.error (.apiError ("Validation des credentials échouée: " ++ e.message)),
     r.state, r.trace⟩

/-- `GeminiProvider.close`. -/
def GeminiProvider.close (s : GeminiState) : GeminiState :=
  { s with session := none }

/-! ### LMStudioProvider (`src/api/lm_studio.py`) -/

/-- `LMStudioProvider.initialize`: `GET {base_url}/v1/models`, any failure
wrapped into an `APIError`. -/
def LMStudioProvider.initialise (net : Net) (cfg : ModelConfig) :
    Except PyExc Unit × List Request :=
  let req : Request := ⟨"GET", optStrRender cfg.base_url ++ "/v1/models", .null⟩
  match net req with
  | .error e =>
    (.error (.apiError ("Erreur d\x27initialisation LM Studio: " ++ e.message)), [req])
  | .ok resp =>
    if resp.status ≠ 200 then
      (.error (.apiError ("Erreur d\x27initialisation LM Studio: "
        ++ "Erreur de connexion à LM Studio: " ++ toString resp.status)), [req])
    else (.ok (), [req])

/-- The `request_data` dict of `LMStudioProvider.chat_completion`
(`max_tokens` falls back to 2048; `"stream"` is always `False`). -/
def LMStudioProvider.chatParams (cfg : ModelConfig) (msgs : List Message)
    (temperature : Rat) (max_tokens : Option Int) : Json :=
  .obj [("messages", .arr (roleContentJson msgs)),
        ("model", .str cfg.name),
        ("temperature", .num temperature),
        ("max_tokens", .num
          ((if optIntTruthy max_tokens then max_tokens.getD 0 else 2048 : Int) : Rat)),
        ("stream", .bool false)]

/-- The completion request `POST {base_url}/v1/chat/completions`. -/
def LMStudioProvider.chatRequest (cfg : ModelConfig) (msgs : List Message)
    (temperature : Rat) (max_tokens : Option Int) : Request :=
  ⟨"POST", optStrRender cfg.base_url ++ "/v1/chat/completions",
    LMStudioProvider.chatParams cfg msgs temperature max_tokens⟩

/-- `LMStudioProvider.chat_completion`: the empty-messages check runs
before the `try` block and before any request; the `stream` flag is
accepted but ignored. -/
def LMStudioProvider.chat_completion (net : Net) (cfg : ModelConfig)
    (msgs : List Message) (temperature : Rat) (max_tokens : Option Int)
    (stream : Bool) : Except PyExc ChatOut × List Request :=
  if msgs.isEmpty then
    (.error (.validationError "La liste des messages ne peut pas être vide"), [])
  else
    let req := LMStudioProvider.chatRequest cfg msgs temperature max_tokens
    match net req with
    | .error e =>
      (.error (.apiError ("Erreur lors de la génération: " ++ e.message)), [req])
    | .ok resp =>
      if resp.status ≠ 200 then
        (.error (.apiError ("Erreur lors de la génération: "
          ++ "Erreur LM Studio: " ++ toString resp.status ++ " - " ++ resp.body)),
         [req])
      else
        match choicesContent resp.json with
        | .ok content => (.ok (.text content), [req])
        | .error e =>
          (.error (.apiError ("Erreur lors de la génération: " ++ e.message)), [req])

/-- `LMStudioProvider.validate_credentials`: `initialize` then `True`,
any exception giving `False`. -/
def LMStudioProvider.validate_credentials (net : Net) (cfg : ModelConfig) :
    Except PyExc Bool × List Request :=
  let r := LMStudioProvider.initialise net cfg
  match r.1 with
  | .ok _ => (.ok true, r.2)
  | .error _ => (.ok false, r.2)

/-! ### OllamaProvider (`src/api/ollama.py`) -/

/-- `OllamaProvider._format_messages`: role `"assistant"` stays, every
other role becomes `"user"`. -/
def OllamaProvider.formatMessages : List Message → List Json
  | [] => []
  | m :: rest =>
    .obj [("role", .str (if m.role = "assistant" then "assistant" else "user")),
          ("content", .str m.content)]
      :: OllamaProvider.formatMessages rest

/-- `OllamaProvider.initialize`: `GET {base_url}/api/version` then
`POST {base_url}/api/show`, any failure wrapped into an `APIError`. -/
def OllamaProvider.initialise (net : Net) (cfg : ModelConfig) :
    Except PyExc Unit × List Request :=
  let req1 : Request := ⟨"GET", optStrRender cfg.base_url ++ "/api/version", .null⟩
  match net req1 with
  | .error e =>
    (.error (.apiError ("Erreur d\x27initialisation Ollama: " ++ e.message)), [req1])
  | .ok resp1 =>
    if resp1.status ≠ 200 then
      (.error (.apiError ("Erreur d\x27initialisation Ollama: "
        ++ "Impossible de se connecter à Ollama")), [req1])
    else
      let req2 : Request :=
        ⟨"POST", optStrRender cfg.base_url ++ "/api/show",
          .obj [("name", .str cfg.name)]⟩
      match net req2 with
      | .error e =>
        (.error (.apiError ("Erreur d\x27initialisation Ollama: " ++ e.message)),
         [req1, req2])
      | .ok resp2 =>
        if resp2.status ≠ 200 then
          (.error (.apiError ("Erreur d\x27initialisation Ollama: "
            ++ "Modèle " ++ cfg.name ++ " non disponible: " ++ toString resp2.status)),
           [req1, req2])
        else (.ok (), [req1, req2])

/-- The `request_data` dict of `OllamaProvider.chat_completion`
(`max_tokens` is never forwarded; `"stream"` is always `False`). -/
def OllamaProvider.chatParams (cfg : ModelConfig) (msgs : List Message)
    (temperature : Rat) : Json :=
  .obj [("model", .str cfg.name),
        ("messages", .arr (OllamaProvider.formatMessages msgs)),
        ("stream", .bool false),
        ("options", .obj [("temperature", .num temperature)])]

/-- The completion request `POST {base_url}/api/chat`. -/
def OllamaProvider.chatRequest (cfg : ModelConfig) (msgs : List Message)
    (temperature : Rat) : Request :=
  ⟨"POST", optStrRender cfg.base_url ++ "/api/chat",
    OllamaProvider.chatParams cfg msgs temperature⟩

/-- `OllamaProvider.chat_completion`: empty-messages check before the
`try` block; the answer is read from `data["message"]["content"]` after a
membership test. -/
def OllamaProvider.chat_completion (net : Net) (cfg : ModelConfig)
    (msgs : List Message) (temperature : Rat) (max_tokens : Option Int)
    (stream : Bool) : Except PyExc ChatOut × List Request :=
  if msgs.isEmpty then
    (.error (.validationError "La liste des messages ne peut pas être vide"), [])
  else
    let req := OllamaProvider.chatRequest cfg msgs temperature
    match net req with
    | .error e =>
      (.error (.apiError ("Erreur lors de la génération: " ++ e.message)), [req])
    | .ok resp =>
      if resp.status ≠ 200 then
        (.error (.apiError ("Erreur lors de la génération: "
          ++ "Erreur Ollama: " ++ toString resp.status ++ " - " ++ resp.body)),
         [req])
      else
        match resp.json.lookup "message" with
        | some msgVal =>
          match msgVal.lookup "content" with
          | some content => (.ok (.text content), [req])
          | none =>
            (.error (.apiError ("Erreur lors de la génération: "
              ++ "Format de réponse Ollama invalide")), [req])
        | none =>
          (.error (.apiError ("Erreur lors de la génération: "
            ++ "Format de réponse Ollama invalide")), [req])

/-- `OllamaProvider.validate_credentials`: `initialize` then `True`,
any exception giving `False`. -/
def OllamaProvider.validate_credentials (net : Net) (cfg : ModelConfig) :
    Except PyExc Bool × List Request :=
  let r := OllamaProvider.initialise net cfg
  match r.1 with
  | .ok _ => (.ok true, r.2)
  | .error _ => (.ok false, r.2)

/-! ### `get_ollama_models` (`src/main.py`) -/

/-- The fallback list returned when the listing fails. -/
def defaultOllamaModels : List String := ["mistral", "llama2", "codellama", "mixtral"]

/-- The comprehension `[model["name"] for model in data["models"]]`, which
raises (and so falls back to the default list) when an entry has no string
name. -/
def extractNames : List Json → Except PyExc (List String)
  | [] => .ok []
  | entry :: rest => do
    let v ← pyItem entry "name"
    match v with
    | .str s =>
      let tail ← extractNames rest
      .ok (s :: tail)
    | _ => .error (.otherError "unorderable types")

/-- `get_ollama_models`: on a 200 response with a `models` array, the
sorted list of the name fields; `["mistral", "llama2"]` when the key is
missing; the default list on any error. -/
def get_ollama_models (r : Except PyExc HttpResponse) : List String :=
  match r with
  | .error _ => defaultOllamaModels
  | .ok resp =>
    if resp.status = 200 then
      match resp.json.lookup "models" with
      | some (.arr entries) =>
        match extractNames entries with
        | .ok names => List.insertionSort (fun a b => a ≤ b) names
        | .error _ => defaultOllamaModels
      | some _ => defaultOllamaModels
      | none => ["mistral", "llama2"]
    else defaultOllamaModels

/-! ### ConfigManager (`src/config/settings.py`) -/

/-- The serializable dict produced by `ConfigManager._config_to_dict`.
Every key the method writes is a field; note that `api_key` is among
them. -/
structure ConfigDict where
  name : String
  provider : String
  type : String
  base_url : Option String
  parameters : Option Json
  api_key : Option String

/-- `ConfigManager._config_to_dict`. -/
def ConfigManager.config_to_dict (c : ModelConfig) : ConfigDict :=
  ⟨c.name, c.provider.value, c.type.value, c.base_url, c.parameters, c.api_key⟩

/-- `ConfigManager._dict_to_config`: enum values are parsed back
(`ValueError` on an unknown value); `base_url`, `parameters` and `api_key`
are read with `.get`. -/
def ConfigManager.dict_to_config (d : ConfigDict) : Except PyExc ModelConfig :=
  match ProviderType.parse d.provider with
  | none => .error (.otherError
      ("\x27" ++ d.provider ++ "\x27 is not a valid ProviderType"))
  | some p =>
    match ModelType.parse d.type with
    | none => .error (.otherError
        ("\x27" ++ d.type ++ "\x27 is not a valid ModelType"))
    | some t =>
      .ok { name := d.name, provider := p, type := t,
            base_url := d.base_url, parameters := d.parameters,
            api_key := d.api_key }

/-- The parsed content of `models.json`: a dict keyed by provider value. -/
def ModelsStore : Type := List (String × ConfigDict)

/-- Python dict assignment `saved_configs[k] = v`: replace in place or
append. -/
def storeSet : ModelsStore → String → ConfigDict → ModelsStore
  | [], k, v => [(k, v)]
  | (k0, v0) :: rest, k, v =>
    if k0 = k then (k, v) :: rest else (k0, v0) :: storeSet rest k v

/-- Python dict lookup / membership test on the store. -/
def storeGet : ModelsStore → String → Option ConfigDict
  | [], _ => none
  | (k0, v0) :: rest, k => if k0 = k then some v0 else storeGet rest k

/-- `ModelParameters().dict()`: the default parameters dict. -/
def defaultParametersJson : Json :=
  .obj [("temperature", .num 0.7), ("max_tokens", .null), ("top_p", .num 1),
        ("frequency_penalty", .num 0), ("presence_penalty", .num 0)]

/-- `ConfigManager.DEFAULT_CONFIGS` (keys absent from a dict read back as
`none`). -/
def ConfigManager.defaultConfigs : ModelsStore :=
  [("mistral", ⟨"codestral-2501", "mistral", "api", none,
     some defaultParametersJson, none⟩),
   ("gemini", ⟨"gemini-pro", "gemini", "api", none,
     some defaultParametersJson, none⟩),
   ("lm_studio", ⟨"llama2", "lm_studio", "local", some "http://localhost:1234",
     some defaultParametersJson, none⟩),
   ("ollama", ⟨"mistral", "ollama", "local", some "http://localhost:11434",
     some defaultParametersJson, none⟩)]

/-- `ConfigManager.save_model_config`: load the existing store (empty when
`models.json` does not exist), set the entry for the provider, write it
back.  File round-tripping through `json.dumps`/`json.loads` is modelled
as the identity on the parsed store. -/
def ConfigManager.save_model_config (store : Option ModelsStore)
    (c : ModelConfig) : ModelsStore :=
  storeSet (store.getD []) c.provider.value (ConfigManager.config_to_dict c)

/-- `ConfigManager.get_model_config`.  `store` is the parsed content of
`models.json` (`none` when the file does not exist); `secret` is the
keyring (`get_api_key`, which returns `None` on any error).  An exception
while reading the saved config is logged and falls back to the defaults;
for a default config of API type a truthy keyring value is copied into
`api_key`. -/
def ConfigManager.get_model_config (store : Option ModelsStore)
    (secret : ProviderType → Option String) (p : ProviderType) :
    Except PyExc ModelConfig :=
  let fromSaved : Option ModelConfig :=
    match store with
    | some s =>
      match storeGet s p.value with
      | some d =>
        match ConfigManager.dict_to_config d with
        | .ok c => some c
        | .error _ => none
      | none => none
    | none => none
  match fromSaved with
  | some c => .ok c
  | none =>
    match storeGet ConfigManager.defaultConfigs p.value with
    | none => .error (.otherError ("Configuration non trouvée pour " ++ p.pyStr))
    | some d =>
      match ConfigManager.dict_to_config d with
      | .error e => .error e
      | .ok c =>
        if c.type = .api then
          match secret p with
          | some k => if k = "" then .ok c else .ok { c with api_key := some k }
          | none => .ok c
        else .ok c

/-! ## Theorems -/

/-- A violated config makes the base-class validation raise a
`ValidationError`. -/
theorem validate_config_error_of_violation (c : ModelConfig)
    (h : (c.type = .api ∧ optStrFalsy c.api_key = true) ∨
         (c.type = .local ∧ optStrFalsy c.base_url = true)) :
    ∃ m, validate_config c = .error (.validationError m) := by
  unfold validate_config
  rcases h with ⟨ht, hk⟩ | ⟨ht, hb⟩
  · rw [if_pos]
    · exact ⟨_, rfl⟩
    · exact ⟨ht, hk⟩
  · rw [if_neg, if_pos]
    · exact ⟨_, rfl⟩
    · exact ⟨ht, hb⟩
    · rintro ⟨ht2, _⟩
      rw [ht] at ht2
      exact ModelType.noConfusion ht2

/-- A config accepted by the base-class validation satisfies the
invariant. -/
theorem configOk_of_validate_config (c : ModelConfig)
    (h : validate_config c = .ok ()) : configOk c := by
  unfold validate_config at h
  split_ifs at h with h1 h2
  refine ⟨fun ht => ?_, fun ht => ?_⟩
  · rcases hk : optStrFalsy c.api_key with _ | _
    · rfl
    · exact absurd ⟨ht, hk⟩ h1
  · rcases hb : optStrFalsy c.base_url with _ | _
    · rfl
    · exact absurd ⟨ht, hb⟩ h2

/-- C2: a config of remote-API type with a falsy credential, or of local
type with a falsy endpoint, makes every adapter constructor raise a
`ValidationError`; conversely, every successfully constructed adapter
satisfies the config invariant, so the violation cannot surface after
construction. -/
theorem C2_construction_validation (c : ModelConfig)
    (h : (c.type = .api ∧ optStrFalsy c.api_key = true) ∨
         (c.type = .local ∧ optStrFalsy c.base_url = true)) :
    ((∃ m, MistralProvider.mk c = .error (.validationError m)) ∧
     (∃ m, GeminiProvider.mk c = .error (.validationError m)) ∧
     (∃ m, LMStudioProvider.mk c = .error (.validationError m)) ∧
     (∃ m, OllamaProvider.mk c = .error (.validationError m))) ∧
    ((∀ c2 s, MistralProvider.mk c2 = .ok s → configOk c2) ∧
     (∀ c2 s, GeminiProvider.mk c2 = .ok s → configOk c2) ∧
     (∀ c2 s, LMStudioProvider.mk c2 = .ok s → configOk c2) ∧
     (∀ c2 s, OllamaProvider.mk c2 = .ok s → configOk c2)) := by
  obtain ⟨m, hm⟩ := validate_config_error_of_violation c h
  constructor
  · refine ⟨?_, ?_, ?_, ?_⟩
    · unfold MistralProvider.mk
      split_ifs with hp
      · exact ⟨_, rfl⟩
      · rw [hm]; exact ⟨m, rfl⟩
    · unfold GeminiProvider.mk
      split_ifs with hp
      · exact ⟨_, rfl⟩
      · rw [hm]; exact ⟨m, rfl⟩
    · unfold LMStudioProvider.mk
      rw [hm]; exact ⟨m, rfl⟩
    · unfold OllamaProvider.mk
      rw [hm]; exact ⟨m, rfl⟩
  · refine ⟨?_, ?_, ?_, ?_⟩ <;> intro c2 s hok
    · unfold MistralProvider.mk at hok
      split_ifs at hok
      rcases hv : validate_config c2 with e | u
      · rw [hv] at hok; exact Except.noConfusion hok
      · exact configOk_of_validate_config c2 (by rw [hv])
    · unfold GeminiProvider.mk at hok
      split_ifs at hok
      rcases hv : validate_config c2 with e | u
      · rw [hv] at hok; exact Except.noConfusion hok
      · exact configOk_of_validate_config c2 (by rw [hv])
    · unfold LMStudioProvider.mk at hok
      rcases hv : validate_config c2 with e | u
      · rw [hv] at hok; exact Except.noConfusion hok
      · exact configOk_of_validate_config c2 (by rw [hv])
    · unfold OllamaProvider.mk at hok
      rcases hv : validate_config c2 with e | u
      · rw [hv] at hok; exact Except.noConfusion hok
      · exact configOk_of_validate_config c2 (by rw [hv])

/-- Witness for C2 at a concrete API-type config with no credential. -/
theorem C2_construction_validation_witness :
    ∃ m, MistralProvider.mk
      { name := "codestral-2501", provider := .mistral, type := .api }
      = .error (.validationError m) :=
  (C2_construction_validation
    { name := "codestral-2501", provider := .mistral, type := .api }
    (Or.inl ⟨rfl, rfl⟩)).1.1

/-- `True` exactly on `Except.ok`. -/
def exceptOk {α : Type} : Except PyExc α → Bool
  | .ok _ => true
  | .error _ => false

/-- `needle` occurs as a contiguous substring of `hay`. -/
def strContains (hay needle : String) : Prop :=
  ∃ pre post, hay = pre ++ needle ++ post

/-- Concrete Mistral config used in witnesses and counterexamples. -/
def cfgMistral : ModelConfig :=
  { name := "codestral-2501", provider := .mistral, type := .api,
    api_key := some "key123" }

/-- Concrete Gemini config used in witnesses and counterexamples. -/
def cfgGemini : ModelConfig :=
  { name := "gemini-pro", provider := .gemini, type := .api,
    api_key := some "key123" }

/-- Concrete Ollama config used in witnesses and counterexamples. -/
def cfgOllama : ModelConfig :=
  { name := "mistral", provider := .ollama, type := .local,
    base_url := some "http://localhost:11434" }

/-- Concrete LM Studio config used in witnesses and counterexamples. -/
def cfgLmStudio : ModelConfig :=
  { name := "llama2", provider := .lm_studio, type := .local,
    base_url := some "http://localhost:1234" }

/-- A successful Mistral/LM Studio-shaped completion response. -/
def choicesOkJson : Json :=
  .obj [("choices", .arr [.obj [("message",
    .obj [("role", .str "assistant"), ("content", .str "ok")])]])]

/-- A network where every request succeeds with a Mistral-shaped answer. -/
def mistralOkNet : Net := fun _ => .ok ⟨200, "", choicesOkJson⟩

/-- A successful Gemini-shaped completion response. -/
def geminiOkJson : Json :=
  .obj [("candidates", .arr [.obj [("content",
    .obj [("parts", .arr [.obj [("text", .str "ok")]])])]])]

/-- A network where every request succeeds with a Gemini-shaped answer. -/
def geminiOkNet : Net := fun _ => .ok ⟨200, "", geminiOkJson⟩

/-- A network where every request fails at the transport level. -/
def failNet : Net := fun _ => .error (.clientError "connexion refusée")

/-- A network where every request is answered `404` with body `"oops"`. -/
def status404Net : Net := fun _ => .ok ⟨404, "oops", .null⟩

/-- The non-streaming Mistral request path issues exactly the completion
request, whatever the backend does. -/
theorem mistral_chatWithSession_trace (net : Net) (cfg : ModelConfig)
    (msgs : List Message) (t : Rat) (mt : Option Int) :
    (MistralProvider.chatWithSession net cfg msgs t mt false).2 =
      [MistralProvider.chatRequest cfg msgs t mt] := by
  unfold MistralProvider.chatWithSession
  simp only [Bool.false_eq_true, if_false]
  cases h : net (MistralProvider.chatRequest cfg msgs t mt) with
  | error e => simp [h]
  | ok resp =>
    simp only [h]
    split_ifs with hst
    · rfl
    · cases hc : choicesContent resp.json with
      | ok c => simp [hc]
      | error e => simp [hc]

/-- The non-streaming Gemini request path issues exactly the completion
request, whatever the backend does. -/
theorem gemini_chatWithSession_trace (net : Net) (cfg : ModelConfig)
    (msgs : List Message) (t : Rat) (mt : Option Int) :
    (GeminiProvider.chatWithSession net cfg msgs t mt false).2 =
      [GeminiProvider.chatRequest cfg msgs t mt] := by
  unfold GeminiProvider.chatWithSession
  simp only [Bool.false_eq_true, if_false]
  cases h : net (GeminiProvider.chatRequest cfg msgs t mt) with
  | error e => simp [h]
  | ok resp =>
    simp only [h]
    split_ifs with hst
    · rfl
    · cases hc : GeminiProvider.extractContent resp.json with
      | ok c => simp [hc]
      | error e => simp [hc]

/-- C1 (amended): only the local-server adapters validate the empty
message list; on a live session the remote adapters build and issue the
completion request with an empty `messages` array instead. -/
theorem C1_empty_messages (net : Net) (cfg : ModelConfig)
    (s : MistralState) (g : GeminiState) (t : Rat) (mt : Option Int) (st : Bool)
    (hs : s.session = some ()) (hg : g.session = some ()) :
    (LMStudioProvider.chat_completion net cfg [] t mt st).1 =
      .error (.validationError "La liste des messages ne peut pas être vide") ∧
    (OllamaProvider.chat_completion net cfg [] t mt st).1 =
      .error (.validationError "La liste des messages ne peut pas être vide") ∧
    (MistralProvider.chat_completion net s [] t mt false).trace =
      [MistralProvider.chatRequest s.config [] t mt] ∧
    (GeminiProvider.chat_completion net g [] t mt false).trace =
      [GeminiProvider.chatRequest g.config [] t mt] := by
  refine ⟨rfl, rfl, ?_, ?_⟩
  · unfold MistralProvider.chat_completion
    rw [if_neg (by simp [hs])]
    exact mistral_chatWithSession_trace net s.config [] t mt
  · unfold GeminiProvider.chat_completion
    rw [if_neg (by simp [hg])]
    exact gemini_chatWithSession_trace net g.config [] t mt

/-- Witness for C1 at concrete configs and a concrete network. -/
theorem C1_empty_messages_witness :
    (LMStudioProvider.chat_completion mistralOkNet cfgLmStudio [] 0.7 none false).1 =
      .error (.validationError "La liste des messages ne peut pas être vide") ∧
    (OllamaProvider.chat_completion mistralOkNet cfgOllama [] 0.7 none false).1 =
      .error (.validationError "La liste des messages ne peut pas être vide") ∧
    (MistralProvider.chat_completion mistralOkNet ⟨cfgMistral, some ()⟩ [] 0.7 none false).trace =
      [MistralProvider.chatRequest cfgMistral [] 0.7 none] ∧
    (GeminiProvider.chat_completion mistralOkNet ⟨cfgGemini, some ()⟩ [] 0.7 none false).trace =
      [GeminiProvider.chatRequest cfgGemini [] 0.7 none] :=
  C1_empty_messages mistralOkNet cfgLmStudio ⟨cfgMistral, some ()⟩ ⟨cfgGemini, some ()⟩
    0.7 none false rfl rfl

/-- Counterexample to C1 as stated: with an empty message list the Mistral
adapter raises no `ValidationError` at all; on a live session and a
well-formed backend answer the call returns the extracted content. -/
theorem C1_counterexample :
    (MistralProvider.chat_completion mistralOkNet ⟨cfgMistral, some ()⟩
      [] 0.7 none false).result = .ok (.text (.str "ok")) := rfl

/-- When `MistralProvider.initialize` does not raise, the instance holds a
session. -/
theorem mistral_init_ok_session (net : Net) (s : MistralState)
    (h : exceptOk (MistralProvider.initialise net s).result = true) :
    (MistralProvider.initialise net s).state.session = some () := by
  unfold MistralProvider.initialise at h ⊢
  cases hv : (MistralProvider.validateWithSession net
      ({ s with session := some () } : MistralState).config).1 with
  | ok b => simp [hv]
  | error e => simp [hv, exceptOk] at h

/-- When `GeminiProvider.initialize` does not raise, the instance holds a
session. -/
theorem gemini_init_ok_session (net : Net) (g : GeminiState)
    (h : exceptOk (GeminiProvider.initialise net g).result = true) :
    (GeminiProvider.initialise net g).state.session = some () := by
  unfold GeminiProvider.initialise at h ⊢
  cases hv : (GeminiProvider.validateWithSession net
      ({ g with session := some () } : GeminiState).config).1 with
  | ok b => simp [hv]
  | error e => simp [hv, exceptOk] at h

/-- On an uninitialized Mistral instance, `chat_completion` leaves the
state the implicit `initialize` produced. -/
theorem mistral_chat_state_of_uninit (net : Net) (s : MistralState)
    (msgs : List Message) (t : Rat) (mt : Option Int) (st : Bool)
    (hs : s.session = none) :
    (MistralProvider.chat_completion net s msgs t mt st).state =
      (MistralProvider.initialise net s).state := by
  unfold MistralProvider.chat_completion
  rw [if_pos hs]
  cases hv : (MistralProvider.initialise net s).result with
  | error e => simp [hv]
  | ok u => simp [hv]

/-- On an uninitialized Gemini instance, `chat_completion` leaves the
state the implicit `initialize` produced. -/
theorem gemini_chat_state_of_uninit (net : Net) (g : GeminiState)
    (msgs : List Message) (t : Rat) (mt : Option Int) (st : Bool)
    (hg : g.session = none) :
    (GeminiProvider.chat_completion net g msgs t mt st).state =
      (GeminiProvider.initialise net g).state := by
  unfold GeminiProvider.chat_completion
  rw [if_pos hg]
  cases hv : (GeminiProvider.initialise net g).result with
  | error e => simp [hv]
  | ok u => simp [hv]

/-- C4 (amended): `close()` resets the session to `None`, which is exactly
the uninitialized state; a subsequent `chat_completion` on the same
instance implicitly re-initializes, and when that initialization does not
raise the instance holds a session again — no fresh instance is
required. -/
theorem C4_closed_state (netM netG : Net) (s : MistralState) (g : GeminiState)
    (msgs : List Message) (t : Rat) (mt : Option Int) (st : Bool) :
    (MistralProvider.close s).session = none ∧
    (GeminiProvider.close g).session = none ∧
    (exceptOk (MistralProvider.initialise netM (MistralProvider.close s)).result = true →
      (MistralProvider.chat_completion netM (MistralProvider.close s)
        msgs t mt st).state.session = some ()) ∧
    (exceptOk (GeminiProvider.initialise netG (GeminiProvider.close g)).result = true →
      (GeminiProvider.chat_completion netG (GeminiProvider.close g)
        msgs t mt st).state.session = some ()) := by
  refine ⟨rfl, rfl, fun h => ?_, fun h => ?_⟩
  · rw [mistral_chat_state_of_uninit netM _ msgs t mt st rfl]
    exact mistral_init_ok_session netM _ h
  · rw [gemini_chat_state_of_uninit netG _ msgs t mt st rfl]
    exact gemini_init_ok_session netG _ h

/-- Witness for C4 on concrete closed instances and successful networks. -/
theorem C4_closed_state_witness :
    (MistralProvider.chat_completion mistralOkNet
      (MistralProvider.close ⟨cfgMistral, some ()⟩)
      [⟨"user", "Bonjour", 0⟩] 0.7 none false).state.session = some () ∧
    (GeminiProvider.chat_completion geminiOkNet
      (GeminiProvider.close ⟨cfgGemini, some ()⟩)
      [⟨"user", "Bonjour", 0⟩] 0.7 none false).state.session = some () :=
  ⟨(C4_closed_state mistralOkNet geminiOkNet ⟨cfgMistral, some ()⟩ ⟨cfgGemini, some ()⟩
      [⟨"user", "Bonjour", 0⟩] 0.7 none false).2.2.1 rfl,
   (C4_closed_state mistralOkNet geminiOkNet ⟨cfgMistral, some ()⟩ ⟨cfgGemini, some ()⟩
      [⟨"user", "Bonjour", 0⟩] 0.7 none false).2.2.2 rfl⟩

/-- Counterexample to C4 as stated: a `chat_completion` on a closed
Mistral instance succeeds and leaves the instance holding a session again —
the closed state is not terminal and no fresh instance is needed. -/
theorem C4_counterexample :
    (MistralProvider.chat_completion mistralOkNet
      (MistralProvider.close ⟨cfgMistral, some ()⟩)
      [⟨"user", "Bonjour", 0⟩] 0.7 none false).result = .ok (.text (.str "ok")) ∧
    (MistralProvider.chat_completion mistralOkNet
      (MistralProvider.close ⟨cfgMistral, some ()⟩)
      [⟨"user", "Bonjour", 0⟩] 0.7 none false).state.session = some () :=
  ⟨rfl, rfl⟩

/-- `MistralProvider.validate_credentials` (as run inside `initialize`)
issues exactly the connection-test request. -/
theorem mistral_validateWithSession_trace (net : Net) (cfg : ModelConfig) :
    (MistralProvider.validateWithSession net cfg).2 =
      [MistralProvider.chatRequest cfg [testMessage] 0.1 (some 10)] := by
  unfold MistralProvider.validateWithSession
  cases hv : (MistralProvider.chatWithSession net cfg [testMessage] 0.1 (some 10) false).1 with
  | ok b => simpa [hv] using mistral_chatWithSession_trace net cfg [testMessage] 0.1 (some 10)
  | error e => simpa [hv] using mistral_chatWithSession_trace net cfg [testMessage] 0.1 (some 10)

/-- `GeminiProvider.validate_credentials` (as run inside `initialize`)
issues exactly the connection-test request. -/
theorem gemini_validateWithSession_trace (net : Net) (cfg : ModelConfig) :
    (GeminiProvider.validateWithSession net cfg).2 =
      [GeminiProvider.chatRequest cfg [testMessage] 0.1 (some 10)] := by
  unfold GeminiProvider.validateWithSession
  cases hv : (GeminiProvider.chatWithSession net cfg [testMessage] 0.1 (some 10) false).1 with
  | ok b => simpa [hv] using gemini_chatWithSession_trace net cfg [testMessage] 0.1 (some 10)
  | error e => simpa [hv] using gemini_chatWithSession_trace net cfg [testMessage] 0.1 (some 10)

/-- `MistralProvider.initialize` issues exactly the connection-test
request. -/
theorem mistral_initialise_trace (net : Net) (s : MistralState) :
    (MistralProvider.initialise net s).trace =
      [MistralProvider.chatRequest s.config [testMessage] 0.1 (some 10)] := by
  unfold MistralProvider.initialise
  cases hv : (MistralProvider.validateWithSession net
      ({ s with session := some () } : MistralState).config).1 with
  | ok b => simpa [hv] using mistral_validateWithSession_trace net s.config
  | error e => simpa [hv] using mistral_validateWithSession_trace net s.config

/-- `GeminiProvider.initialize` issues exactly the connection-test
request. -/
theorem gemini_initialise_trace (net : Net) (g : GeminiState) :
    (GeminiProvider.initialise net g).trace =
      [GeminiProvider.chatRequest g.config [testMessage] 0.1 (some 10)] := by
  unfold GeminiProvider.initialise
  cases hv : (GeminiProvider.validateWithSession net
      ({ g with session := some () } : GeminiState).config).1 with
  | ok b => simpa [hv] using gemini_validateWithSession_trace net g.config
  | error e => simpa [hv] using gemini_validateWithSession_trace net g.config

/-- A non-empty LM Studio completion call issues exactly the completion
request. -/
theorem lmStudio_chat_trace (net : Net) (cfg : ModelConfig)
    (msgs : List Message) (t : Rat) (mt : Option Int) (st : Bool)
    (h : msgs ≠ []) :
    (LMStudioProvider.chat_completion net cfg msgs t mt st).2 =
      [LMStudioProvider.chatRequest cfg msgs t mt] := by
  unfold LMStudioProvider.chat_completion
  rw [if_neg (by simp [List.isEmpty_iff, h])]
  cases hn : net (LMStudioProvider.chatRequest cfg msgs t mt) with
  | error e => simp [hn]
  | ok resp =>
    simp only [hn]
    split_ifs with hst
    · rfl
    · cases hc : choicesContent resp.json with
      | ok c => simp [hc]
      | error e => simp [hc]

/-- A non-empty Ollama completion call issues exactly the completion
request. -/
theorem ollama_chat_trace (net : Net) (cfg : ModelConfig)
    (msgs : List Message) (t : Rat) (mt : Option Int) (st : Bool)
    (h : msgs ≠ []) :
    (OllamaProvider.chat_completion net cfg msgs t mt st).2 =
      [OllamaProvider.chatRequest cfg msgs t] := by
  unfold OllamaProvider.chat_completion
  rw [if_neg (by simp [List.isEmpty_iff, h])]
  cases hn : net (OllamaProvider.chatRequest cfg msgs t) with
  | error e => simp [hn]
  | ok resp =>
    simp only [hn]
    split_ifs with hst
    · rfl
    · cases hl : resp.json.lookup "message" with
      | none => simp [hl]
      | some mv =>
        cases hc : mv.lookup "content" with
        | none => simp [hl, hc]
        | some c => simp [hl, hc]

/-- C5 (amended): on an uninitialized instance, the remote-API adapters
(Mistral, Gemini) first run the implicit `initialize` — the first request
issued is its connection test, before the completion request; the
local-server adapters (LM Studio, Ollama) never call `initialize` from
`chat_completion` and issue the completion request directly. -/
theorem C5_implicit_initialisation (netM netG netL netO : Net)
    (s : MistralState) (g : GeminiState) (cfgL cfgO : ModelConfig)
    (msgs : List Message) (t : Rat) (mt : Option Int) (st : Bool)
    (hs : s.session = none) (hg : g.session = none) (hmsg : msgs ≠ []) :
    (MistralProvider.chat_completion netM s msgs t mt st).trace.head? =
      some (MistralProvider.chatRequest s.config [testMessage] 0.1 (some 10)) ∧
    (GeminiProvider.chat_completion netG g msgs t mt st).trace.head? =
      some (GeminiProvider.chatRequest g.config [testMessage] 0.1 (some 10)) ∧
    (LMStudioProvider.chat_completion netL cfgL msgs t mt st).2 =
      [LMStudioProvider.chatRequest cfgL msgs t mt] ∧
    (OllamaProvider.chat_completion netO cfgO msgs t mt st).2 =
      [OllamaProvider.chatRequest cfgO msgs t] := by
  refine ⟨?_, ?_, lmStudio_chat_trace netL cfgL msgs t mt st hmsg,
    ollama_chat_trace netO cfgO msgs t mt st hmsg⟩
  · unfold MistralProvider.chat_completion
    rw [if_pos hs]
    cases hv : (MistralProvider.initialise netM s).result with
    | error e => simp [hv, mistral_initialise_trace]
    | ok u => simp [hv, mistral_initialise_trace]
  · unfold GeminiProvider.chat_completion
    rw [if_pos hg]
    cases hv : (GeminiProvider.initialise netG g).result with
    | error e => simp [hv, gemini_initialise_trace]
    | ok u => simp [hv, gemini_initialise_trace]

/-- Witness for C5 on concrete uninitialized instances. -/
theorem C5_implicit_initialisation_witness :
    (MistralProvider.chat_completion mistralOkNet ⟨cfgMistral, none⟩
      [⟨"user", "Bonjour", 0⟩] 0.7 none false).trace.head? =
      some (MistralProvider.chatRequest cfgMistral [testMessage] 0.1 (some 10)) ∧
    (GeminiProvider.chat_completion geminiOkNet ⟨cfgGemini, none⟩
      [⟨"user", "Bonjour", 0⟩] 0.7 none false).trace.head? =
      some (GeminiProvider.chatRequest cfgGemini [testMessage] 0.1 (some 10)) ∧
    (LMStudioProvider.chat_completion mistralOkNet cfgLmStudio
      [⟨"user", "Bonjour", 0⟩] 0.7 none false).2 =
      [LMStudioProvider.chatRequest cfgLmStudio [⟨"user", "Bonjour", 0⟩] 0.7 none] ∧
    (OllamaProvider.chat_completion mistralOkNet cfgOllama
      [⟨"user", "Bonjour", 0⟩] 0.7 none false).2 =
      [OllamaProvider.chatRequest cfgOllama [⟨"user", "Bonjour", 0⟩] 0.7] :=
  C5_implicit_initialisation mistralOkNet geminiOkNet mistralOkNet mistralOkNet
    ⟨cfgMistral, none⟩ ⟨cfgGemini, none⟩ cfgLmStudio cfgOllama
    [⟨"user", "Bonjour", 0⟩] 0.7 none false rfl rfl (List.cons_ne_nil _ _)

/-- A network where only the Ollama chat endpoint is reachable; the
endpoints `initialize` checks are all down. -/
def ollamaChatOnlyNet : Net := fun r =>
  if r.url = "http://localhost:11434/api/chat" then
    .ok ⟨200, "",
      .obj [("message", .obj [("role", .str "assistant"), ("content", .str "salut")])]⟩
  else .error (.clientError "connexion refusée")

/-- Counterexample to C5 as stated: on a network where `initialize` can
only fail, `OllamaProvider.chat_completion` from the uninitialized state
still succeeds and issues only the completion request — so it does not
trigger `initialize` first. -/
theorem C5_counterexample :
    (OllamaProvider.chat_completion ollamaChatOnlyNet cfgOllama
      [⟨"user", "Bonjour", 0⟩] 0.7 none false).1 = .ok (.text (.str "salut")) ∧
    (OllamaProvider.initialise ollamaChatOnlyNet cfgOllama).1 =
      .error (.apiError "Erreur d\x27initialisation Ollama: connexion refusée") ∧
    (OllamaProvider.chat_completion ollamaChatOnlyNet cfgOllama
      [⟨"user", "Bonjour", 0⟩] 0.7 none false).2 =
      [OllamaProvider.chatRequest cfgOllama [⟨"user", "Bonjour", 0⟩] 0.7] :=
  ⟨rfl, rfl, rfl⟩

/-- C3: `validate_credentials` is asymmetric.  The local-server variants
return the boolean outcome of the underlying check and never raise; the
remote-API variants rewrap any failure of the underlying test completion
into an `APIError` carrying its message, and never return `False`. -/
theorem C3_validate_credentials_asymmetry (net : Net) (cfgL cfgO : ModelConfig)
    (s : MistralState) (g : GeminiState) (em eg : PyExc)
    (hm : (MistralProvider.chat_completion net s [testMessage] 0.1 (some 10)
      false).result = .error em)
    (hg : (GeminiProvider.chat_completion net g [testMessage] 0.1 (some 10)
      false).result = .error eg) :
    (LMStudioProvider.validate_credentials net cfgL).1 =
      .ok (exceptOk (LMStudioProvider.initialise net cfgL).1) ∧
    (OllamaProvider.validate_credentials net cfgO).1 =
      .ok (exceptOk (OllamaProvider.initialise net cfgO).1) ∧
    (MistralProvider.validate_credentials net s).result =
      .error (.apiError ("Validation des credentials échouée: " ++ em.message)) ∧
    (GeminiProvider.validate_credentials net g).result =
      .error (.apiError ("Validation des credentials échouée: " ++ eg.message)) ∧
    (∀ (net2 : Net) (s2 : MistralState),
      (MistralProvider.validate_credentials net2 s2).result ≠ .ok false) ∧
    (∀ (net2 : Net) (g2 : GeminiState),
      (GeminiProvider.validate_credentials net2 g2).result ≠ .ok false) := by
  refine ⟨?_, ?_, ?_, ?_, ?_, ?_⟩
  · unfold LMStudioProvider.validate_credentials
    cases hv : (LMStudioProvider.initialise net cfgL).1 with
    | ok u => simp [hv, exceptOk]
    | error e => simp [hv, exceptOk]
  · unfold OllamaProvider.validate_credentials
    cases hv : (OllamaProvider.initialise net cfgO).1 with
    | ok u => simp [hv, exceptOk]
    | error e => simp [hv, exceptOk]
  · unfold MistralProvider.validate_credentials
    simp [hm]
  · unfold GeminiProvider.validate_credentials
    simp [hg]
  · intro net2 s2
    unfold MistralProvider.validate_credentials
    cases hv : (MistralProvider.chat_completion net2 s2 [testMessage] 0.1
        (some 10) false).result with
    | ok u => simp [hv]
    | error e => simp [hv]
  · intro net2 g2
    unfold GeminiProvider.validate_credentials
    cases hv : (GeminiProvider.chat_completion net2 g2 [testMessage] 0.1
        (some 10) false).result with
    | ok u => simp [hv]
    | error e => simp [hv]

/-- Witness for C3 on a network where every request fails. -/
theorem C3_validate_credentials_asymmetry_witness :
    (LMStudioProvider.validate_credentials failNet cfgLmStudio).1 = .ok false ∧
    (OllamaProvider.validate_credentials failNet cfgOllama).1 = .ok false ∧
    (MistralProvider.validate_credentials failNet ⟨cfgMistral, some ()⟩).result =
      .error (.apiError ("Validation des credentials échouée: "
        ++ "Erreur de communication avec Mistral: connexion refusée")) ∧
    (GeminiProvider.validate_credentials failNet ⟨cfgGemini, some ()⟩).result =
      .error (.apiError ("Validation des credentials échouée: "
        ++ "Erreur de communication avec Gemini: connexion refusée")) := by
  have h := C3_validate_credentials_asymmetry failNet cfgLmStudio cfgOllama
    ⟨cfgMistral, some ()⟩ ⟨cfgGemini, some ()⟩
    (.apiError "Erreur de communication avec Mistral: connexion refusée")
    (.apiError "Erreur de communication avec Gemini: connexion refusée")
    rfl rfl
  exact ⟨h.1, h.2.1, h.2.2.1, h.2.2.2.1⟩

/-- String append is associative (via the underlying character lists). -/
theorem stringAppend_assoc (a b c : String) : a ++ b ++ c = a ++ (b ++ c) := by
  apply String.ext
  simp [String.data_append, List.append_assoc]

/-- Appending the empty string is the identity. -/
theorem stringAppend_empty (s : String) : s ++ "" = s := by
  apply String.ext
  simp [String.data_append]

/-- The middle part of a three-way append is contained in it. -/
theorem strContains_append3 (a b c : String) : strContains (a ++ b ++ c) b :=
  ⟨a, c, rfl⟩

/-- A suffix is contained. -/
theorem strContains_suffix (a b : String) : strContains (a ++ b) b :=
  ⟨a, "", (stringAppend_empty (a ++ b)).symm⟩

/-- Containment survives appending on the right. -/
theorem strContains_append_right {s n : String} (c : String)
    (h : strContains s n) : strContains (s ++ c) n := by
  obtain ⟨p, q, rfl⟩ := h
  refine ⟨p, q ++ c, ?_⟩
  apply String.ext
  simp [String.data_append, List.append_assoc]

/-- Containment survives prepending on the left. -/
theorem strContains_prepend {s n : String} (a : String)
    (h : strContains s n) : strContains (a ++ s) n := by
  obtain ⟨p, q, rfl⟩ := h
  refine ⟨a ++ p, q, ?_⟩
  apply String.ext
  simp [String.data_append, List.append_assoc]

/-- C6: whenever the backend answers the completion request with a
non-200 status, every adapter raises an `APIError` whose message contains
both the decimal status code and the response body text. -/
theorem C6_non200_backend_error (net : Net) (resp : HttpResponse)
    (s : MistralState) (g : GeminiState) (cfgL cfgO : ModelConfig)
    (msgs : List Message) (t : Rat) (mt : Option Int)
    (hmsg : msgs ≠ [])
    (hs : s.session = some ()) (hg : g.session = some ())
    (hnetM : net (MistralProvider.chatRequest s.config msgs t mt) = .ok resp)
    (hnetG : net (GeminiProvider.chatRequest g.config msgs t mt) = .ok resp)
    (hnetL : net (LMStudioProvider.chatRequest cfgL msgs t mt) = .ok resp)
    (hnetO : net (OllamaProvider.chatRequest cfgO msgs t) = .ok resp)
    (hstatus : resp.status ≠ 200) :
    (∃ m, (MistralProvider.chat_completion net s msgs t mt false).result =
        .error (.apiError m) ∧
      strContains m (toString resp.status) ∧ strContains m resp.body) ∧
    (∃ m, (GeminiProvider.chat_completion net g msgs t mt false).result =
        .error (.apiError m) ∧
      strContains m (toString resp.status) ∧ strContains m resp.body) ∧
    (∃ m, (LMStudioProvider.chat_completion net cfgL msgs t mt false).1 =
        .error (.apiError m) ∧
      strContains m (toString resp.status) ∧ strContains m resp.body) ∧
    (∃ m, (OllamaProvider.chat_completion net cfgO msgs t mt false).1 =
        .error (.apiError m) ∧
      strContains m (toString resp.status) ∧ strContains m resp.body) := by
  refine ⟨?_, ?_, ?_, ?_⟩
  · unfold MistralProvider.chat_completion
    rw [if_neg (by simp [hs])]
    unfold MistralProvider.chatWithSession
    simp only [Bool.false_eq_true, if_false, hnetM]
    rw [if_pos hstatus]
    refine ⟨_, rfl, ?_, ?_⟩
    · exact strContains_prepend _ (strContains_append_right _
        (strContains_append3 "Erreur Mistral (" (toString resp.status) "): "))
    · exact strContains_prepend _ (strContains_suffix _ resp.body)
  · unfold GeminiProvider.chat_completion
    rw [if_neg (by simp [hg])]
    unfold GeminiProvider.chatWithSession
    simp only [Bool.false_eq_true, if_false, hnetG]
    rw [if_pos hstatus]
    refine ⟨_, rfl, ?_, ?_⟩
    · exact strContains_prepend _ (strContains_append_right _
        (strContains_append3 "Erreur Gemini (" (toString resp.status) "): "))
    · exact strContains_prepend _ (strContains_suffix _ resp.body)
  · unfold LMStudioProvider.chat_completion
    rw [if_neg (by simp [List.isEmpty_iff, hmsg])]
    simp only [hnetL]
    rw [if_pos hstatus]
    refine ⟨_, rfl, ?_, ?_⟩
    · exact strContains_append_right _
        (strContains_append3 ("Erreur lors de la génération: " ++ "Erreur LM Studio: ")
          (toString resp.status) " - ")
    · exact strContains_suffix _ resp.body
  · unfold OllamaProvider.chat_completion
    rw [if_neg (by simp [List.isEmpty_iff, hmsg])]
    simp only [hnetO]
    rw [if_pos hstatus]
    refine ⟨_, rfl, ?_, ?_⟩
    · exact strContains_append_right _
        (strContains_append3 ("Erreur lors de la génération: " ++ "Erreur Ollama: ")
          (toString resp.status) " - ")
    · exact strContains_suffix _ resp.body

/-- Witness for C6 on a network answering everything `404` with body
`"oops"`. -/
theorem C6_non200_backend_error_witness :
    (∃ m, (MistralProvider.chat_completion status404Net ⟨cfgMistral, some ()⟩
        [⟨"user", "Bonjour", 0⟩] 0.7 none false).result = .error (.apiError m) ∧
      strContains m "404" ∧ strContains m "oops") ∧
    (∃ m, (GeminiProvider.chat_completion status404Net ⟨cfgGemini, some ()⟩
        [⟨"user", "Bonjour", 0⟩] 0.7 none false).result = .error (.apiError m) ∧
      strContains m "404" ∧ strContains m "oops") ∧
    (∃ m, (LMStudioProvider.chat_completion status404Net cfgLmStudio
        [⟨"user", "Bonjour", 0⟩] 0.7 none false).1 = .error (.apiError m) ∧
      strContains m "404" ∧ strContains m "oops") ∧
    (∃ m, (OllamaProvider.chat_completion status404Net cfgOllama
        [⟨"user", "Bonjour", 0⟩] 0.7 none false).1 = .error (.apiError m) ∧
      strContains m "404" ∧ strContains m "oops") :=
  C6_non200_backend_error status404Net ⟨404, "oops", .null⟩
    ⟨cfgMistral, some ()⟩ ⟨cfgGemini, some ()⟩ cfgLmStudio cfgOllama
    [⟨"user", "Bonjour", 0⟩] 0.7 none
    (List.cons_ne_nil _ _) rfl rfl rfl rfl rfl rfl (by decide)

/-- The Gemini message-conversion loop is the elementwise map of one
message to one `contents` entry. -/
theorem GeminiProvider.formatMessages_eq_map (msgs : List Message) :
    GeminiProvider.formatMessages msgs = msgs.map (fun m =>
      .obj [("role", .str (if m.role = "user" then "user" else "model")),
            ("parts", .arr [.obj [("text", .str m.content)]])]) := by
  induction msgs with
  | nil => rfl
  | cons m rest ih => simp [GeminiProvider.formatMessages, ih]

/-- C7: the Gemini request body maps the message list, in order and
preserving length, into `contents`; entry `i` keeps role `"user"` for a
user message and is relabeled `"model"` for an assistant message, with the
message content at `parts[0].text`. -/
theorem C7_gemini_message_mapping (msgs : List Message) (t : Rat)
    (mt : Option Int) (i : Nat) (hi : i < msgs.length) :
    (GeminiProvider.chatParams msgs t mt).lookup "contents" =
      some (.arr (GeminiProvider.formatMessages msgs)) ∧
    (GeminiProvider.formatMessages msgs).length = msgs.length ∧
    (∀ hj : i < (GeminiProvider.formatMessages msgs).length,
      (GeminiProvider.formatMessages msgs).get ⟨i, hj⟩ =
        .obj [("role", .str (if (msgs.get ⟨i, hi⟩).role = "user"
                 then "user" else "model")),
              ("parts", .arr [.obj [("text", .str (msgs.get ⟨i, hi⟩).content)]])]) ∧
    ((msgs.get ⟨i, hi⟩).role = "user" →
      ∀ hj : i < (GeminiProvider.formatMessages msgs).length,
        ((GeminiProvider.formatMessages msgs).get ⟨i, hj⟩).lookup "role" =
          some (.str "user")) ∧
    ((msgs.get ⟨i, hi⟩).role = "assistant" →
      ∀ hj : i < (GeminiProvider.formatMessages msgs).length,
        ((GeminiProvider.formatMessages msgs).get ⟨i, hj⟩).lookup "role" =
          some (.str "model")) := by
  have hget : ∀ hj : i < (GeminiProvider.formatMessages msgs).length,
      (GeminiProvider.formatMessages msgs).get ⟨i, hj⟩ =
        .obj [("role", .str (if (msgs.get ⟨i, hi⟩).role = "user"
                 then "user" else "model")),
              ("parts", .arr [.obj [("text", .str (msgs.get ⟨i, hi⟩).content)]])] := by
    intro hj
    simp [GeminiProvider.formatMessages_eq_map, List.getElem_map]
  refine ⟨rfl, by simp [GeminiProvider.formatMessages_eq_map], hget, ?_, ?_⟩
  · intro hrole hj
    rw [hget hj, hrole]
    simp [Json.lookup, assocLookup]
  · intro hrole hj
    rw [hget hj, hrole]
    have hne : ¬ (("assistant" : String) = "user") := by decide
    simp [Json.lookup, assocLookup, hne]

/-- Witness for C7 on a two-message conversation. -/
theorem C7_gemini_message_mapping_witness :
    (GeminiProvider.formatMessages
      [⟨"user", "salut", 0⟩, ⟨"assistant", "bonjour", 0⟩]).length = 2 ∧
    ((GeminiProvider.formatMessages
      [⟨"user", "salut", 0⟩, ⟨"assistant", "bonjour", 0⟩]).get
        ⟨1, by decide⟩).lookup "role" = some (.str "model") := by
  have h := C7_gemini_message_mapping
    [⟨"user", "salut", 0⟩, ⟨"assistant", "bonjour", 0⟩] 0.7 none 1 (by decide)
  exact ⟨h.2.1, h.2.2.2.2 rfl _⟩

/-- C8: on a 200 answer whose `models` array yields the name list, the
Ollama model listing returns those names sorted: it is exactly the
insertion sort of the names, it is sorted, and it is a permutation of the
extracted names. -/
theorem C8_ollama_model_listing (resp : HttpResponse) (entries : List Json)
    (names : List String)
    (h200 : resp.status = 200)
    (hmv : resp.json.lookup "models" = some (.arr entries))
    (hnames : extractNames entries = .ok names) :
    get_ollama_models (.ok resp) = List.insertionSort (fun a b => a ≤ b) names ∧
    List.Sorted (fun a b => a ≤ b) (get_ollama_models (.ok resp)) ∧
    List.Perm (get_ollama_models (.ok resp)) names := by
  have h1 : get_ollama_models (.ok resp) =
      List.insertionSort (fun a b => a ≤ b) names := by
    unfold get_ollama_models
    simp [h200, hmv, hnames]
  haveI htot : IsTotal String (fun a b => a ≤ b) := ⟨fun a b => le_total a b⟩
  haveI htr : IsTrans String (fun a b => a ≤ b) :=
    ⟨fun a b c hab hbc => le_trans hab hbc⟩
  refine ⟨h1, ?_, ?_⟩
  · rw [h1]
    exact List.sorted_insertionSort _ names
  · rw [h1]
    exact List.perm_insertionSort _ names

/-- The mocked Ollama tags response `{"models":[{"name":"b"},{"name":"a"}]}`. -/
def ollamaTagsResp : HttpResponse :=
  ⟨200, "", .obj [("models",
    .arr [.obj [("name", .str "b")], .obj [("name", .str "a")]])]⟩

/-- Witness for C8 on the mocked response: the result is `["a", "b"]`. -/
theorem C8_ollama_model_listing_witness :
    get_ollama_models (.ok ollamaTagsResp) = ["a", "b"] ∧
    List.Sorted (fun a b => a ≤ b) (get_ollama_models (.ok ollamaTagsResp)) ∧
    List.Perm (get_ollama_models (.ok ollamaTagsResp)) ["b", "a"] := by
  have h := C8_ollama_model_listing ollamaTagsResp
    [.obj [("name", .str "b")], .obj [("name", .str "a")]] ["b", "a"] rfl rfl rfl
  have hba : ¬ (("b" : String) ≤ "a") := by
    rw [String.le_iff_toList_le]
    decide
  have hsort : List.insertionSort (fun a b : String => a ≤ b) ["b", "a"] =
      ["a", "b"] := by
    simp [List.insertionSort, List.orderedInsert, hba]
  exact ⟨h.1.trans hsort, h.2.1, h.2.2⟩

/-- Enum round trip for provider values. -/
theorem providerType_parse_value (p : ProviderType) :
    ProviderType.parse p.value = some p := by
  cases p <;> rfl

/-- Enum round trip for model-type values. -/
theorem modelType_parse_value (t : ModelType) :
    ModelType.parse t.value = some t := by
  cases t <;> rfl

/-- `_dict_to_config` undoes `_config_to_dict` on every field. -/
theorem dict_to_config_config_to_dict (c : ModelConfig) :
    ConfigManager.dict_to_config (ConfigManager.config_to_dict c) = .ok c := by
  unfold ConfigManager.dict_to_config ConfigManager.config_to_dict
  simp [providerType_parse_value, modelType_parse_value]

/-- Setting a key in the store makes it readable back. -/
theorem storeGet_storeSet (store : ModelsStore) (k : String) (v : ConfigDict) :
    storeGet (storeSet store k v) k = some v := by
  induction store with
  | nil => simp [storeSet, storeGet]
  | cons kv rest ih =>
    obtain ⟨k0, v0⟩ := kv
    by_cases h : k0 = k
    · simp [storeSet, storeGet, h]
    · simp [storeSet, storeGet, h, ih]

/-- C9 (amended): saving a `ModelConfig` and reloading it for the same
provider yields field-for-field equality — including the credential, which
is written into the per-model storage by `_config_to_dict` and read back
from there, independently of the separate secret store. -/
theorem C9_config_roundtrip (c : ModelConfig) (store : Option ModelsStore)
    (secret : ProviderType → Option String) :
    ConfigManager.dict_to_config (ConfigManager.config_to_dict c) = .ok c ∧
    ConfigManager.get_model_config
      (some (ConfigManager.save_model_config store c)) secret c.provider = .ok c ∧
    (ConfigManager.config_to_dict c).api_key = c.api_key := by
  refine ⟨dict_to_config_config_to_dict c, ?_, rfl⟩
  unfold ConfigManager.get_model_config ConfigManager.save_model_config
  simp [storeGet_storeSet, dict_to_config_config_to_dict]

/-- The stored Mistral config used in the C9 counterexample. -/
def cfgStored : ModelConfig :=
  { name := "codestral-2501", provider := .mistral, type := .api,
    api_key := some "sk-123" }

/-- Counterexample to C9 as stated: the credential is not excluded from
the per-model storage — `_config_to_dict` writes it there — and on reload
it is resolved from that file, not from the secret store (which here holds
a different value). -/
theorem C9_counterexample :
    (ConfigManager.config_to_dict cfgStored).api_key = some "sk-123" ∧
    ConfigManager.get_model_config
      (some (ConfigManager.save_model_config none cfgStored))
      (fun _ => some "other-key") .mistral = .ok cfgStored :=
  ⟨rfl, rfl⟩

/-- C10: when `initialize` of a remote-API adapter raises, the error is an
`APIError` and the instance is left with `session = None` — back in the
uninitialized state, with no half-open session. -/
theorem C10_initialise_atomic (net : Net) (s : MistralState) (g : GeminiState)
    (em eg : PyExc)
    (hm : (MistralProvider.initialise net s).result = .error em)
    (hg : (GeminiProvider.initialise net g).result = .error eg) :
    (MistralProvider.initialise net s).state.session = none ∧
    (∃ m, em = .apiError m) ∧
    (GeminiProvider.initialise net g).state.session = none ∧
    (∃ m, eg = .apiError m) := by
  have hM : (MistralProvider.initialise net s).state.session = none ∧
      ∃ m, em = .apiError m := by
    unfold MistralProvider.initialise at hm ⊢
    cases hv : (MistralProvider.validateWithSession net
        ({ s with session := some () } : MistralState).config).1 with
    | ok b => simp [hv] at hm
    | error e =>
      refine ⟨by simp [hv], ?_⟩
      simp only [hv] at hm
      simp at hm
      exact ⟨_, hm.symm⟩
  have hG : (GeminiProvider.initialise net g).state.session = none ∧
      ∃ m, eg = .apiError m := by
    unfold GeminiProvider.initialise at hg ⊢
    cases hv : (GeminiProvider.validateWithSession net
        ({ g with session := some () } : GeminiState).config).1 with
    | ok b => simp [hv] at hg
    | error e =>
      refine ⟨by simp [hv], ?_⟩
      simp only [hv] at hg
      simp at hg
      exact ⟨_, hg.symm⟩
  exact ⟨hM.1, hM.2, hG.1, hG.2⟩

/-- Witness for C10 on a network where every request fails. -/
theorem C10_initialise_atomic_witness :
    (MistralProvider.initialise failNet ⟨cfgMistral, none⟩).state.session = none ∧
    (GeminiProvider.initialise failNet ⟨cfgGemini, none⟩).state.session = none := by
  have h := C10_initialise_atomic failNet ⟨cfgMistral, none⟩ ⟨cfgGemini, none⟩
    (.apiError ("Erreur d\x27initialisation Mistral: "
      ++ "Validation des credentials échouée: "
      ++ "Erreur de communication avec Mistral: connexion refusée"))
    (.apiError ("Erreur d\x27initialisation Gemini: "
      ++ "Validation des credentials échouée: "
      ++ "Erreur de communication avec Gemini: connexion refusée"))
    rfl rfl
  exact ⟨h.1, h.2.2.1⟩

end Llm
